import Mathlib

/-!
Verification of the OnAirBox firmware control logic (src/Firmware/src/main.cpp).

The firmware is a single-threaded Arduino sketch.  We embed each section of
the code as a pure step function over an explicit state record, with time
(the value of millis) passed in as a parameter and all side effects
(pin writes, MQTT publishes, serial logging) collected into an event list.
Unsigned 32-bit subtraction, as performed by expressions of the form
millis() - timestamp on unsigned long values, is modelled by usub32.
-/

namespace OnAirBox

/-- Operational parameters, main.cpp lines 42-54. -/
def LED_INTERVAL : Nat := 1000

/-- Repeat interval for on-air messages, ms (main.cpp line 49). -/
def LED_TTL : Nat := 30000

/-- Timeout after which the LED is turned off if no message is received,
ms (main.cpp line 50). -/
def LED_TIMEOUT : Nat := 70000

/-- Button debounce time, ms (main.cpp line 52). -/
def BUTTON_DEBOUNCE : Nat := 50

/-- Preventive reboot interval, ms = 27 hours (main.cpp line 53). -/
def REBOOT_INTERVAL : Nat := 97200000

/-- WiFi connection timeout before reboot, ms (main.cpp line 54). -/
def WIFI_TIMEOUT : Nat := 60000

/-- Delay between MQTT reconnection attempts, ms (main.cpp line 42). -/
def MQTT_RECONNECT_DELAY : Nat := 1000

/-- Status topic name (main.cpp line 39). -/
def MQTT_TOPIC_STATUS : String := "onair/status"

/-- Arrival topic name (main.cpp line 40). -/
def MQTT_TOPIC_ARRIVE : String := "onair/arrive"

/-- Two to the power 32: the modulus of the unsigned long type on the ESP32. -/
def U32 : Nat := 4294967296

/-- Unsigned 32-bit subtraction a - b as computed on unsigned long values. -/
def usub32 (a b : Nat) : Nat := (a + (U32 - b % U32)) % U32

/-- Mutable global state of the sketch (main.cpp lines 63-69). -/
structure BoxState where
  lastMessageReceived : Nat
  lastLedToggle : Nat
  lastMessageSent : Nat
  isOnAir : Bool
  lastLedState : Bool
  lastButtonState : Bool
  deriving Repr, DecidableEq

/-- Observable side effects of the sketch: pin writes, MQTT traffic,
serial diagnostics and sleeps. -/
inductive Event where
  | ledWrite (level : Bool)
  | publish (topic : String) (payload : String) (ok : Bool)
  | subscribe (ok : Bool)
  | mqttConnect (ok : Bool)
  | ensureWifi
  | delayMs (ms : Nat)
  | log (msg : String)
  deriving Repr, DecidableEq

/-- ASCII code of the digit one. -/
def byteOne : Nat := 49

/-- ASCII code of the digit zero. -/
def byteZero : Nat := 48

/-- The MQTT message callback, main.cpp lines 205-230.  The payload is the
received byte string; now is the value of millis at the call. -/
def mqttCallback (payload : List Nat) (now : Nat) (s : BoxState) :
    BoxState × List Event :=
  if payload.length = 1 ∧ payload.headD 0 = byteOne then
    ({ s with isOnAir := true, lastMessageReceived := now },
      [Event.log "On-Air status set to ON"])
  else if payload.length = 1 ∧ payload.headD 0 = byteZero then
    ({ s with isOnAir := false, lastMessageReceived := now },
      [Event.log "On-Air status set to OFF"])
  else
    (s, [Event.log "Unrecognized message"])

/-- The on-air timeout check of the loop, main.cpp lines 321-325. -/
def timeoutStep (now : Nat) (s : BoxState) : BoxState × List Event :=
  if s.isOnAir = true ∧ LED_TIMEOUT < usub32 now s.lastMessageReceived then
    ({ s with isOnAir := false },
      [Event.log "On-Air status set to OFF (timeout)"])
  else
    (s, [])

/-- The button handling section of the loop, main.cpp lines 281-305.
read1 is the raw pin level sampled at line 283, read2 the re-sample at
line 288 after the debounce delay; true stands for HIGH, false for LOW
(the button is active-low); now is the value of millis; pub is the
result returned by the MQTT publish call. -/
def buttonStep (read1 read2 : Bool) (now : Nat) (pub : Bool) (s : BoxState) :
    BoxState × List Event :=
  let currentButtonState := read1
  if currentButtonState ≠ s.lastButtonState then
    -- delay(BUTTON_DEBOUNCE), then re-sample the pin
    if currentButtonState = read2 then
      if currentButtonState = false then
        ({ s with lastButtonState := currentButtonState, lastMessageSent := now },
          [Event.publish MQTT_TOPIC_STATUS "1" pub])
      else
        ({ s with lastButtonState := currentButtonState },
          [Event.publish MQTT_TOPIC_STATUS "0" pub])
    else
      (s, [])
  else
    (s, [])

/-- The periodic re-announce section of the loop, main.cpp lines 307-314. -/
def announceStep (now : Nat) (pub : Bool) (s : BoxState) :
    BoxState × List Event :=
  if s.isOnAir = true ∧ LED_TTL < usub32 now s.lastMessageSent then
    ({ s with lastMessageSent := now },
      [Event.publish MQTT_TOPIC_STATUS "1" pub])
  else
    (s, [])

/-- The LED render section of the loop, main.cpp lines 327-347,
parameterized by the configured blink interval. -/
def renderStep (ledInterval now : Nat) (s : BoxState) : BoxState × List Event :=
  if s.isOnAir = true then
    if ledInterval = 0 then
      (s, [Event.ledWrite true])
    else if ledInterval < usub32 now s.lastLedToggle then
      ({ s with lastLedToggle := now, lastLedState := !s.lastLedState },
        [Event.ledWrite (!s.lastLedState)])
    else
      (s, [])
  else
    (s, [Event.ledWrite false])

/-- The message pump, main.cpp line 319: mqttClient.loop delivers each
pending inbound payload to mqttCallback in order. -/
def pumpStep (msgs : List (List Nat)) (now : Nat) (s : BoxState) :
    BoxState × List Event :=
  match msgs with
  | [] => (s, [])
  | p :: rest =>
    let r := mqttCallback p now s
    let r2 := pumpStep rest now r.1
    (r2.1, r.2 ++ r2.2)

/-- Environment of one loop iteration: the millis value and the raw inputs
consumed during the tick. -/
structure TickEnv where
  now : Nat
  buttonRead1 : Bool
  buttonRead2 : Bool
  pubOk : Bool
  pubOk2 : Bool
  inbound : List (List Nat)
  deriving Repr

/-- The body of one loop iteration after the reboot check, main.cpp lines
278-347, in the steady state where the MQTT session is connected
(ensureMqttConnected then returns without effects). -/
def tickBody (env : TickEnv) (s : BoxState) : BoxState × List Event :=
  let r1 := buttonStep env.buttonRead1 env.buttonRead2 env.now env.pubOk s
  let r2 := announceStep env.now env.pubOk2 r1.1
  let r3 := pumpStep env.inbound env.now r2.1
  let r4 := timeoutStep env.now r3.1
  let r5 := renderStep LED_INTERVAL env.now r4.1
  (r5.1, r1.2 ++ r2.2 ++ r3.2 ++ r4.2 ++ r5.2)

/-- One iteration of loop, main.cpp lines 267-348.  Returns none when the
preventive reboot at lines 269-276 fires, in which case nothing else in the
iteration runs. -/
def loopTick (env : TickEnv) (s : BoxState) : Option (BoxState × List Event) :=
  if s.isOnAir = false ∧ REBOOT_INTERVAL < env.now then
    none
  else
    some (tickBody env s)

/-- Initialization of lastButtonState in setup, main.cpp line 256: the
inverse of the raw pin reading, to force an initial state change. -/
def setupButtonInit (pinRead : Bool) : Bool := !pinRead

/-- The times at which the re-announce step fires over a run of loop
iterations at the given tick times, with the on-air flag held true
throughout (the inputs keeping it true are outside this fragment). -/
def announceRun (s : BoxState) : List Nat → List Nat
  | [] => []
  | t :: ts =>
    let r := announceStep t true s
    (if r.2.isEmpty then [] else [t]) ++ announceRun r.1 ts

/-- Outcome of the WiFi wait loop of ensureWifiConnected, main.cpp lines
97-108: either the link came up and the function returns, or the connection
timeout expired and the device restarts.  The spin outcome stands for fuel
exhaustion of the model and is never reached with enough fuel. -/
inductive WifiOutcome where
  | connected (t : Nat)
  | restarted (t : Nat)
  | spin
  deriving Repr, DecidableEq

/-- The wait loop of ensureWifiConnected, main.cpp lines 97-108.  The link
status is polled through the status predicate once per iteration; each
iteration sleeps 500 ms, so poll k happens at time start + 500 * k. -/
def wifiWaitLoop (status : Nat → Bool) (start : Nat) : Nat → Nat → WifiOutcome
  | k, 0 =>
    if status k then WifiOutcome.connected (start + 500 * k) else WifiOutcome.spin
  | k, fuel + 1 =>
    if status k then WifiOutcome.connected (start + 500 * k)
    else if WIFI_TIMEOUT < usub32 (start + 500 * (k + 1)) start then
      WifiOutcome.restarted (start + 500 * (k + 1))
    else
      wifiWaitLoop status start (k + 1) fuel

/-- Result of ensureWifiConnected, main.cpp lines 76-112: the updated
firstWiFiConnection and lastWifiConnection globals, the events emitted
before the wait loop, and how the call ended. -/
structure WifiResult where
  firstWiFi : Bool
  lastWifi : Nat
  events : List Event
  outcome : WifiOutcome
  deriving Repr, DecidableEq

/-- ensureWifiConnected, main.cpp lines 76-112.  connectedAtEntry is the
value of the WiFi status test at line 79, start the value of millis stored
into lastWifiConnection at line 96, and status gives the link state at each
subsequent poll of the wait loop. -/
def ensureWifiConnected (connectedAtEntry : Bool) (status : Nat → Bool)
    (start : Nat) (firstWiFi : Bool) (lastWifi : Nat) (fuel : Nat) : WifiResult :=
  if connectedAtEntry then
    { firstWiFi := firstWiFi, lastWifi := lastWifi, events := [],
      outcome := WifiOutcome.connected start }
  else
    { firstWiFi := false, lastWifi := start,
      events := [Event.ledWrite true],
      outcome := wifiWaitLoop status start 0 fuel }

/-- Environment of one iteration of the MQTT connection loop: the results
returned by the connect, publish and subscribe calls. -/
structure MqttIterEnv where
  connectOk : Bool
  publishOk : Bool
  subscribeOk : Bool
  deriving Repr, DecidableEq

/-- Events of one iteration of the connection loop body of
ensureMqttConnected, main.cpp lines 117-201: re-verify WiFi, force the LED
on, wait before a retry unless this is the first attempt, attempt to connect
with the identity as client id, and on success publish the arrival
announcement with the identity as payload and subscribe to the status
topic. -/
def iterEvents (cid : String) (first : Bool) (env : MqttIterEnv) : List Event :=
  [Event.ensureWifi, Event.ledWrite true] ++
  (if first then [] else [Event.delayMs MQTT_RECONNECT_DELAY]) ++
  (if env.connectOk then
    [Event.mqttConnect true, Event.publish MQTT_TOPIC_ARRIVE cid env.publishOk,
      Event.subscribe env.subscribeOk]
  else
    [Event.mqttConnect false])

/-- ensureMqttConnected, main.cpp lines 115-202: loop until the session
state is connected.  The envs list supplies the call results of successive
iterations; an empty list with the session still down stands for a loop
still running. -/
def ensureMqttConnected (cid : String) (connected first : Bool) :
    List MqttIterEnv → Bool × List Event
  | [] => (connected, [])
  | env :: rest =>
    if connected then (connected, [])
    else
      let r := ensureMqttConnected cid env.connectOk false rest
      (r.1, iterEvents cid first env ++ r.2)

/-- Number of publishes of the given identity to the arrival topic in an
event trace. -/
def countArrive (cid : String) (evs : List Event) : Nat :=
  evs.countP (fun e =>
    match e with
    | Event.publish t p _ => t == MQTT_TOPIC_ARRIVE && p == cid
    | _ => false)

/-- Scanning check that every subscribe event in the trace is preceded by a
publish of the identity to the arrival topic; seen records whether such a
publish has already been scanned. -/
def subscribesCovered (cid : String) (seen : Bool) : List Event → Bool
  | [] => true
  | e :: rest =>
    match e with
    | Event.subscribe _ => seen && subscribesCovered cid seen rest
    | Event.publish t p _ =>
      subscribesCovered cid (seen || (t == MQTT_TOPIC_ARRIVE && p == cid)) rest
    | _ => subscribesCovered cid seen rest

/-- Scanning check that every MQTT connect attempt in the trace is preceded
by its own WiFi re-verification; credit counts the re-verifications not yet
consumed by a connect attempt. -/
def connectCovered (credit : Nat) : List Event → Bool
  | [] => true
  | e :: rest =>
    match e with
    | Event.ensureWifi => connectCovered (credit + 1) rest
    | Event.mqttConnect _ => credit != 0 && connectCovered (credit - 1) rest
    | _ => connectCovered credit rest

theorem usub32_eq {a b : Nat} (hle : b ≤ a) (hlt : a - b < U32) :
    usub32 a b = a - b := by
  unfold usub32 U32 at *
  omega

theorem usub32_add_self (a d : Nat) (h : d < U32) : usub32 (a + d) a = d := by
  unfold usub32 U32 at *
  omega

theorem buttonStep_fst (read1 read2 : Bool) (now : Nat) (pub : Bool) (s : BoxState) :
    (buttonStep read1 read2 now pub s).1.isOnAir = s.isOnAir ∧
    (buttonStep read1 read2 now pub s).1.lastMessageReceived = s.lastMessageReceived := by
  unfold buttonStep
  dsimp only
  refine ⟨?_, ?_⟩ <;>
  · split
    · split
      · split <;> rfl
      · rfl
    · rfl

theorem announceStep_fst (now : Nat) (pub : Bool) (s : BoxState) :
    (announceStep now pub s).1.isOnAir = s.isOnAir ∧
    (announceStep now pub s).1.lastMessageReceived = s.lastMessageReceived := by
  unfold announceStep
  split <;> simp

theorem renderStep_isOnAir (T now : Nat) (s : BoxState) :
    (renderStep T now s).1.isOnAir = s.isOnAir := by
  unfold renderStep
  split
  · split
    · simp
    · split <;> simp
  · simp

theorem pumpStep_nil (now : Nat) (s : BoxState) : pumpStep [] now s = (s, []) := rfl

theorem timeoutStep_fire {now : Nat} {s : BoxState} (h1 : s.isOnAir = true)
    (h2 : LED_TIMEOUT < usub32 now s.lastMessageReceived) :
    timeoutStep now s =
      ({ s with isOnAir := false },
        [Event.log "On-Air status set to OFF (timeout)"]) := by
  unfold timeoutStep
  rw [if_pos ⟨h1, h2⟩]

theorem timeoutStep_skip {now : Nat} {s : BoxState}
    (h : ¬(s.isOnAir = true ∧ LED_TIMEOUT < usub32 now s.lastMessageReceived)) :
    timeoutStep now s = (s, []) := by
  unfold timeoutStep
  rw [if_neg h]

theorem announceStep_fire {now : Nat} {pub : Bool} {s : BoxState}
    (h1 : s.isOnAir = true) (h2 : LED_TTL < usub32 now s.lastMessageSent) :
    announceStep now pub s =
      ({ s with lastMessageSent := now },
        [Event.publish MQTT_TOPIC_STATUS "1" pub]) := by
  unfold announceStep
  rw [if_pos ⟨h1, h2⟩]

theorem announceStep_skip {now : Nat} {pub : Bool} {s : BoxState}
    (h : ¬(s.isOnAir = true ∧ LED_TTL < usub32 now s.lastMessageSent)) :
    announceStep now pub s = (s, []) := by
  unfold announceStep
  rw [if_neg h]

/-- Claim C1: in a tick where the on-air flag is true and no inbound message
arrives, the flag is cleared and the transition logged exactly when more
than the presence timeout has elapsed since the last accepted message;
otherwise the tick leaves the flag true, so decay never fires early and
fires on the first tick past the timeout. -/
theorem C1_timeout (env : TickEnv) (s : BoxState)
    (hOn : s.isOnAir = true) (hIn : env.inbound = [])
    (hle : s.lastMessageReceived ≤ env.now)
    (hwrap : env.now - s.lastMessageReceived < U32) :
    (LED_TIMEOUT < env.now - s.lastMessageReceived →
      ∃ s2 evs, loopTick env s = some (s2, evs) ∧ s2.isOnAir = false ∧
        Event.log "On-Air status set to OFF (timeout)" ∈ evs) ∧
    (env.now - s.lastMessageReceived ≤ LED_TIMEOUT →
      ∃ s2 evs, loopTick env s = some (s2, evs) ∧ s2.isOnAir = true) := by
  have hguard : ¬(s.isOnAir = false ∧ REBOOT_INTERVAL < env.now) := by
    simp [hOn]
  have hloop : loopTick env s = some (tickBody env s) := by
    unfold loopTick; rw [if_neg hguard]
  have hb := buttonStep_fst env.buttonRead1 env.buttonRead2 env.now env.pubOk s
  have ha := announceStep_fst env.now env.pubOk2
    (buttonStep env.buttonRead1 env.buttonRead2 env.now env.pubOk s).1
  set s1 := (announceStep env.now env.pubOk2
    (buttonStep env.buttonRead1 env.buttonRead2 env.now env.pubOk s).1).1 with hs1
  have hOn1 : s1.isOnAir = true := by rw [ha.1, hb.1]; exact hOn
  have hrecv1 : s1.lastMessageReceived = s.lastMessageReceived := by rw [ha.2, hb.2]
  have husub : usub32 env.now s1.lastMessageReceived =
      env.now - s.lastMessageReceived := by
    rw [hrecv1]; exact usub32_eq hle hwrap
  constructor
  · intro hgt
    have hfire : timeoutStep env.now s1 =
        ({ s1 with isOnAir := false },
          [Event.log "On-Air status set to OFF (timeout)"]) :=
      timeoutStep_fire hOn1 (by rw [husub]; exact hgt)
    refine ⟨(tickBody env s).1, (tickBody env s).2, by rw [hloop], ?_, ?_⟩
    · show (tickBody env s).1.isOnAir = false
      unfold tickBody
      simp only [hIn, pumpStep_nil, ← hs1, hfire, renderStep_isOnAir]
    · show Event.log "On-Air status set to OFF (timeout)" ∈ (tickBody env s).2
      unfold tickBody
      simp only [hIn, pumpStep_nil, ← hs1, hfire]
      simp
  · intro hle2
    have hskip : timeoutStep env.now s1 = (s1, []) := by
      refine timeoutStep_skip ?_
      rintro ⟨-, hc⟩
      rw [husub] at hc
      omega
    refine ⟨(tickBody env s).1, (tickBody env s).2, by rw [hloop], ?_⟩
    show (tickBody env s).1.isOnAir = true
    unfold tickBody
    simp only [hIn, pumpStep_nil, ← hs1, hskip, renderStep_isOnAir]
    exact hOn1

/-- Concrete instantiation of the C1 theorem: 80000 ms after the last
accepted message a tick clears the flag and logs the timeout. -/
theorem C1_timeout_witness :
    BoxState.isOnAir ⟨0, 0, 0, true, false, false⟩ = true ∧
    TickEnv.inbound ⟨80000, false, false, true, true, []⟩ = [] ∧
    LED_TIMEOUT < 80000 - 0 ∧
    ∃ s2 evs,
      loopTick ⟨80000, false, false, true, true, []⟩ ⟨0, 0, 0, true, false, false⟩ =
        some (s2, evs) ∧
      s2.isOnAir = false ∧
      Event.log "On-Air status set to OFF (timeout)" ∈ evs := by
  refine ⟨rfl, rfl, by decide, ?_⟩
  exact (C1_timeout ⟨80000, false, false, true, true, []⟩ ⟨0, 0, 0, true, false, false⟩
    rfl rfl (by decide) (by decide)).1 (by decide)

/-- Claim C2: a single byte 1 sets the flag and stamps the timestamp, a
single byte 0 clears the flag and stamps the timestamp, and every other
payload leaves both the flag and the timestamp unchanged. -/
theorem C2_mqttCallback (payload : List Nat) (now : Nat) (s : BoxState) :
    (payload = [byteOne] →
      mqttCallback payload now s =
        ({ s with isOnAir := true, lastMessageReceived := now },
          [Event.log "On-Air status set to ON"])) ∧
    (payload = [byteZero] →
      mqttCallback payload now s =
        ({ s with isOnAir := false, lastMessageReceived := now },
          [Event.log "On-Air status set to OFF"])) ∧
    (payload.length ≠ 1 ∨ (payload.headD 0 ≠ byteOne ∧ payload.headD 0 ≠ byteZero) →
      (mqttCallback payload now s).1 = s) := by
  refine ⟨?_, ?_, ?_⟩
  · intro h; subst h; simp [mqttCallback]
  · intro h; subst h; simp [mqttCallback, byteOne, byteZero]
  · intro h
    unfold mqttCallback
    rcases h with h | ⟨h1, h2⟩
    · simp [h]
    · rw [List.headD_eq_head?] at h1 h2
      simp [h1, h2]

/-- Concrete instantiation of the C2 theorem. -/
theorem C2_mqttCallback_witness :
    (mqttCallback [49] 5 ⟨0, 0, 0, false, false, false⟩ =
      ({ lastMessageReceived := 5, lastLedToggle := 0, lastMessageSent := 0,
         isOnAir := true, lastLedState := false, lastButtonState := false },
        [Event.log "On-Air status set to ON"])) ∧
    (mqttCallback [50, 51] 5 ⟨0, 0, 0, false, false, false⟩).1 =
      ⟨0, 0, 0, false, false, false⟩ := by
  constructor
  · exact (C2_mqttCallback [49] 5 ⟨0, 0, 0, false, false, false⟩).1 rfl
  · exact (C2_mqttCallback [50, 51] 5 ⟨0, 0, 0, false, false, false⟩).2.2
      (Or.inl (by decide))

theorem announceRun_chain (Δ : Nat) (ticks : List Nat) :
    ∀ s : BoxState, s.isOnAir = true →
    List.Chain' (fun a b : Nat => a ≤ b ∧ b - a ≤ Δ) ticks →
    (∀ h, ticks.head? = some h →
      s.lastMessageSent ≤ h ∧ h - s.lastMessageSent ≤ LED_TTL + Δ) →
    (∀ t ∈ ticks, t < U32) →
    List.Chain' (fun p q : Nat => q - p ≤ LED_TTL + Δ)
      (s.lastMessageSent :: announceRun s ticks) := by
  induction ticks with
  | nil =>
    intro s _ _ _ _
    simp [announceRun]
  | cons t ts ih =>
    intro s hOn hchain hhead hbound
    have hht := hhead t rfl
    have htlt : t < U32 := hbound t (List.mem_cons_self t ts)
    have husub : usub32 t s.lastMessageSent = t - s.lastMessageSent :=
      usub32_eq hht.1 (by omega)
    have hheadts : ∀ h, ts.head? = some h → t ≤ h ∧ h - t ≤ Δ := by
      intro h hh
      cases ts with
      | nil => simp at hh
      | cons t2 ts2 =>
        have he : t2 = h := by simpa using hh
        subst he
        exact (List.chain'_cons.mp hchain).1
    have hboundts : ∀ x ∈ ts, x < U32 := fun x hx =>
      hbound x (List.mem_cons_of_mem t hx)
    by_cases hf : LED_TTL < t - s.lastMessageSent
    · have hfire := @announceStep_fire t true s hOn (by rw [husub]; exact hf)
      have hrun : announceRun s (t :: ts) =
          t :: announceRun { s with lastMessageSent := t } ts := by
        conv_lhs => rw [announceRun.eq_def]
        dsimp only
        rw [hfire]
        simp
      rw [hrun, List.chain'_cons]
      refine ⟨hht.2, ?_⟩
      have hih := ih { s with lastMessageSent := t } hOn hchain.tail
        (by
          intro h hh
          have h2 := hheadts h hh
          exact ⟨h2.1, by show h - t ≤ LED_TTL + Δ; omega⟩)
        hboundts
      exact hih
    · have hskip := @announceStep_skip t true s
        (by rintro ⟨-, hc⟩; rw [husub] at hc; omega)
      have hrun : announceRun s (t :: ts) = announceRun s ts := by
        conv_lhs => rw [announceRun.eq_def]
        dsimp only
        rw [hskip]
        simp
      rw [hrun]
      refine ih s hOn hchain.tail ?_ hboundts
      intro h hh
      have h1 := hheadts h hh
      exact ⟨Nat.le_trans hht.1 h1.1, by omega⟩

/-- Claim C4: in a tick where the on-air flag is true, the re-announce step
publishes the ON message to the status topic and refreshes lastMessageSent
exactly when more than the re-announce interval has elapsed since the last
send; consequently, over any run of ticks at most Delta apart with the flag
held true, consecutive re-announce publishes are never more than the
re-announce interval plus one tick gap apart. -/
theorem C4_reannounce (now : Nat) (pub : Bool) (s : BoxState) (Δ : Nat)
    (ticks : List Nat) :
    (s.isOnAir = true → s.lastMessageSent ≤ now → now - s.lastMessageSent < U32 →
      (LED_TTL < now - s.lastMessageSent →
        announceStep now pub s =
          ({ s with lastMessageSent := now },
            [Event.publish MQTT_TOPIC_STATUS "1" pub])) ∧
      (now - s.lastMessageSent ≤ LED_TTL → announceStep now pub s = (s, []))) ∧
    (s.isOnAir = true →
      List.Chain' (fun a b : Nat => a ≤ b ∧ b - a ≤ Δ) (s.lastMessageSent :: ticks) →
      (∀ t ∈ ticks, t < U32) →
      List.Chain' (fun p q : Nat => q - p ≤ LED_TTL + Δ)
        (s.lastMessageSent :: announceRun s ticks)) := by
  constructor
  · intro hOn hle hwrap
    have husub : usub32 now s.lastMessageSent = now - s.lastMessageSent :=
      usub32_eq hle hwrap
    constructor
    · intro h
      exact announceStep_fire hOn (by rw [husub]; exact h)
    · intro h
      refine announceStep_skip ?_
      rintro ⟨-, hc⟩
      rw [husub] at hc
      omega
  · intro hOn hchain hbound
    refine announceRun_chain Δ ticks s hOn hchain.tail ?_ hbound
    intro h hh
    cases ticks with
    | nil => simp at hh
    | cons t2 ts2 =>
      have he : t2 = h := by simpa using hh
      subst he
      have h1 := (List.chain'_cons.mp hchain).1
      exact ⟨h1.1, by omega⟩

/-- Concrete instantiation of the C4 theorem: with the flag on and the last
send at time 0, a tick at 31000 ms re-publishes ON and refreshes the
timestamp, and over ticks at 20000 and 40000 ms the publish gaps stay below
the interval plus the tick gap. -/
theorem C4_reannounce_witness :
    BoxState.isOnAir ⟨0, 0, 0, true, false, false⟩ = true ∧
    (0 : Nat) ≤ 31000 ∧ (31000 : Nat) - 0 < U32 ∧ LED_TTL < 31000 - 0 ∧
    announceStep 31000 true ⟨0, 0, 0, true, false, false⟩ =
      (⟨0, 0, 31000, true, false, false⟩,
        [Event.publish MQTT_TOPIC_STATUS "1" true]) ∧
    List.Chain' (fun a b : Nat => a ≤ b ∧ b - a ≤ 20000) (0 :: [20000, 40000]) ∧
    (∀ t ∈ [20000, 40000], t < U32) ∧
    List.Chain' (fun p q : Nat => q - p ≤ LED_TTL + 20000)
      (0 :: announceRun ⟨0, 0, 0, true, false, false⟩ [20000, 40000]) := by
  have h := C4_reannounce 31000 true ⟨0, 0, 0, true, false, false⟩ 20000 [20000, 40000]
  refine ⟨rfl, by decide, by decide, by decide, ?_,
    by simp [List.chain'_cons], by decide, ?_⟩
  · exact (h.1 rfl (by decide) (by decide)).1 (by decide)
  · exact h.2 rfl (by simp [List.chain'_cons]) (by decide)

/-- Counterexample to claim C5 as stated: the re-announce publish of the ON
message returns failure, yet lastMessageSent is advanced from 0 to the
current time 31000. -/
theorem C5_counterexample :
    (announceStep 31000 false ⟨0, 0, 0, true, false, false⟩).2 =
      [Event.publish MQTT_TOPIC_STATUS "1" false] ∧
    (announceStep 31000 false ⟨0, 0, 0, true, false, false⟩).1.lastMessageSent =
      31000 := by
  constructor <;> decide

/-- Claim C5 amended: lastMessageSent is advanced on every attempted publish
of the ON status message, by the press edge and by the re-announce step,
whether or not the publish succeeds; it is never advanced by the OFF publish
nor by a step that publishes nothing. -/
theorem C5_amended (read1 read2 : Bool) (now : Nat) (pub : Bool) (s : BoxState) :
    (s.isOnAir = true → LED_TTL < usub32 now s.lastMessageSent →
      (announceStep now pub s).1.lastMessageSent = now) ∧
    (¬(s.isOnAir = true ∧ LED_TTL < usub32 now s.lastMessageSent) →
      (announceStep now pub s).1.lastMessageSent = s.lastMessageSent) ∧
    (read1 ≠ s.lastButtonState → read2 = read1 → read1 = false →
      (buttonStep read1 read2 now pub s).1.lastMessageSent = now) ∧
    (read1 ≠ s.lastButtonState → read2 = read1 → read1 = true →
      (buttonStep read1 read2 now pub s).1.lastMessageSent = s.lastMessageSent) ∧
    (read1 = s.lastButtonState →
      (buttonStep read1 read2 now pub s).1.lastMessageSent = s.lastMessageSent) ∧
    (read2 ≠ read1 →
      (buttonStep read1 read2 now pub s).1.lastMessageSent = s.lastMessageSent) := by
  refine ⟨?_, ?_, ?_, ?_, ?_, ?_⟩
  · intro h1 h2; rw [announceStep_fire h1 h2]
  · intro h; rw [announceStep_skip h]
  · intro h1 h2 h3; subst h3
    unfold buttonStep; dsimp only
    rw [if_pos h1, if_pos h2.symm]
    simp
  · intro h1 h2 h3; subst h3
    unfold buttonStep; dsimp only
    rw [if_pos h1, if_pos h2.symm]
    simp
  · intro h
    unfold buttonStep; dsimp only
    rw [if_neg (by simp [h])]
  · intro h
    unfold buttonStep; dsimp only
    split
    · rw [if_neg (fun hc => h hc.symm)]
    · rfl

/-- Concrete instantiation of the amended C5 theorem: a failing re-announce
publish still advances lastMessageSent to the tick time. -/
theorem C5_amended_witness :
    BoxState.isOnAir ⟨0, 0, 0, true, false, false⟩ = true ∧
    LED_TTL < usub32 31000 (BoxState.lastMessageSent ⟨0, 0, 0, true, false, false⟩) ∧
    (announceStep 31000 false ⟨0, 0, 0, true, false, false⟩).1.lastMessageSent =
      31000 := by
  refine ⟨rfl, by decide, ?_⟩
  exact (C5_amended true true 31000 false ⟨0, 0, 0, true, false, false⟩).1 rfl (by decide)

/-- Claim C3: a tick restarts the device if and only if the on-air flag is
false and uptime exceeds the reboot interval; the restart aborts the tick
before any other work, and while on air no preventive restart occurs. -/
theorem C3_reboot (env : TickEnv) (s : BoxState) :
    loopTick env s = none ↔ s.isOnAir = false ∧ REBOOT_INTERVAL < env.now := by
  unfold loopTick
  split
  · next h => exact iff_of_true rfl h
  · next h => exact iff_of_false (by simp) h

/-- Claim C6: a raw level equal to the debounced level does nothing; a change
that reverts within the debounce window yields no edge and no publish; a
stable press edge updates the debounced level and publishes exactly one ON
message; a stable release edge publishes exactly one OFF message; and a
press-then-release sequence yields exactly one ON then one OFF publish. -/
theorem C6_debounce (read1 read2 : Bool) (now now2 : Nat) (pub pub2 : Bool)
    (s : BoxState) :
    (read1 = s.lastButtonState → buttonStep read1 read2 now pub s = (s, [])) ∧
    (read1 ≠ s.lastButtonState → read2 ≠ read1 →
      buttonStep read1 read2 now pub s = (s, [])) ∧
    (read1 ≠ s.lastButtonState → read2 = read1 → read1 = false →
      buttonStep read1 read2 now pub s =
        ({ s with lastButtonState := false, lastMessageSent := now },
          [Event.publish MQTT_TOPIC_STATUS "1" pub])) ∧
    (read1 ≠ s.lastButtonState → read2 = read1 → read1 = true →
      buttonStep read1 read2 now pub s =
        ({ s with lastButtonState := true },
          [Event.publish MQTT_TOPIC_STATUS "0" pub])) ∧
    (s.lastButtonState = true →
      (buttonStep false false now pub s).2 =
        [Event.publish MQTT_TOPIC_STATUS "1" pub] ∧
      (buttonStep true true now2 pub2 (buttonStep false false now pub s).1).2 =
        [Event.publish MQTT_TOPIC_STATUS "0" pub2]) := by
  refine ⟨?_, ?_, ?_, ?_, ?_⟩
  · intro h; simp [buttonStep, h]
  · intro h1 h2
    simp only [buttonStep]
    rw [if_pos h1, if_neg (by exact fun hc => h2 hc.symm)]
  · intro h1 h2 h3; subst h3
    simp only [buttonStep]
    rw [if_pos h1, if_pos h2.symm]
    simp
  · intro h1 h2 h3; subst h3
    simp only [buttonStep]
    rw [if_pos h1, if_pos h2.symm]
    simp
  · intro h
    constructor
    · simp [buttonStep, h]
    · simp [buttonStep, h]

/-- Concrete instantiation of the C6 theorem: press then release from a
released debounced state publishes exactly one ON then one OFF message. -/
theorem C6_debounce_witness :
    BoxState.lastButtonState ⟨0, 0, 0, false, false, true⟩ = true ∧
    (buttonStep false false 5 true ⟨0, 0, 0, false, false, true⟩).2 =
      [Event.publish MQTT_TOPIC_STATUS "1" true] ∧
    (buttonStep true true 9 true
        (buttonStep false false 5 true ⟨0, 0, 0, false, false, true⟩).1).2 =
      [Event.publish MQTT_TOPIC_STATUS "0" true] := by
  have h := C6_debounce false false 5 9 true true ⟨0, 0, 0, false, false, true⟩
  exact ⟨rfl, (h.2.2.2.2 rfl).1, (h.2.2.2.2 rfl).2⟩

/-- Claim C7: with the on-air flag false the render step drives the LED OFF
and changes nothing, so repeated ticks are idempotent; with the flag true and
blink interval zero it drives the LED steadily ON; with the flag true and a
positive blink interval it toggles the LED phase exactly when the interval
has elapsed since the last toggle, resetting the toggle reference. -/
theorem C7_render (T now : Nat) (s : BoxState)
    (hle : s.lastLedToggle ≤ now) (hwrap : now - s.lastLedToggle < U32) :
    (s.isOnAir = false → renderStep T now s = (s, [Event.ledWrite false])) ∧
    (s.isOnAir = true → T = 0 → renderStep T now s = (s, [Event.ledWrite true])) ∧
    (s.isOnAir = true → 0 < T → now - s.lastLedToggle ≤ T →
      renderStep T now s = (s, [])) ∧
    (s.isOnAir = true → 0 < T → T < now - s.lastLedToggle →
      renderStep T now s =
        ({ s with lastLedToggle := now, lastLedState := !s.lastLedState },
          [Event.ledWrite (!s.lastLedState)])) := by
  refine ⟨?_, ?_, ?_, ?_⟩
  · intro h; simp [renderStep, h]
  · intro h1 h2; simp [renderStep, h1, h2]
  · intro h1 h2 h3
    simp only [renderStep, usub32_eq hle hwrap, h1, if_true]
    rw [if_neg (by omega), if_neg (by omega)]
  · intro h1 h2 h3
    simp only [renderStep, usub32_eq hle hwrap, h1, if_true]
    rw [if_neg (by omega), if_pos (by omega)]

/-- Concrete instantiation of the C7 theorem: a tick 2000 ms after the last
toggle with a 1000 ms blink interval toggles the LED phase once. -/
theorem C7_render_witness :
    BoxState.lastLedToggle ⟨0, 0, 0, true, false, false⟩ ≤ 2000 ∧
    2000 - BoxState.lastLedToggle ⟨0, 0, 0, true, false, false⟩ < U32 ∧
    renderStep 1000 2000 ⟨0, 0, 0, true, false, false⟩ =
      (⟨0, 2000, 0, true, true, false⟩, [Event.ledWrite true]) := by
  have h := C7_render 1000 2000 ⟨0, 0, 0, true, false, false⟩ (by decide) (by decide)
  refine ⟨by decide, by decide, ?_⟩
  have h4 := h.2.2.2 rfl (by decide) (by decide)
  simpa using h4

/-- Claim C10: setup records the inverse of the raw pin level as the
debounced level, so the first tick with a stable input necessarily fires an
edge, publishing ON when the pin reads LOW (pressed) and OFF when it reads
HIGH (released), after which the debounced level equals the pin level. -/
theorem C10_initial_edge (pinRead : Bool) (now : Nat) (pub : Bool) (s : BoxState) :
    (buttonStep pinRead pinRead now pub
        { s with lastButtonState := setupButtonInit pinRead }).2 =
      [Event.publish MQTT_TOPIC_STATUS (if pinRead then "0" else "1") pub] ∧
    (buttonStep pinRead pinRead now pub
        { s with lastButtonState := setupButtonInit pinRead }).1.lastButtonState =
      pinRead := by
  cases pinRead <;> simp [buttonStep, setupButtonInit]

theorem wifiWaitLoop_connected (status : Nat → Bool) (start : Nat) :
    ∀ (fuel k t : Nat), 500 * (k + fuel + 1) < U32 →
      wifiWaitLoop status start k fuel = WifiOutcome.connected t →
      ∃ j, k ≤ j ∧ t = start + 500 * j ∧ status j = true ∧
        (j = k ∨ 500 * j ≤ WIFI_TIMEOUT) := by
  intro fuel
  induction fuel with
  | zero =>
    intro k t hb heq
    simp only [wifiWaitLoop] at heq
    by_cases hs : status k
    · rw [if_pos hs] at heq
      have ht : start + 500 * k = t := by simpa using heq
      exact ⟨k, Nat.le_refl k, ht.symm, hs, Or.inl rfl⟩
    · rw [if_neg hs] at heq
      simp at heq
  | succ fuel ih =>
    intro k t hb heq
    simp only [wifiWaitLoop] at heq
    by_cases hs : status k
    · rw [if_pos hs] at heq
      have ht : start + 500 * k = t := by simpa using heq
      exact ⟨k, Nat.le_refl k, ht.symm, hs, Or.inl rfl⟩
    · rw [if_neg hs] at heq
      have hu : usub32 (start + 500 * (k + 1)) start = 500 * (k + 1) :=
        usub32_add_self start (500 * (k + 1)) (by omega)
      by_cases hto : WIFI_TIMEOUT < usub32 (start + 500 * (k + 1)) start
      · rw [if_pos hto] at heq
        simp at heq
      · rw [if_neg hto] at heq
        obtain ⟨j, hj1, hj2, hj3, hj4⟩ := ih (k + 1) t (by omega) heq
        refine ⟨j, by omega, hj2, hj3, Or.inr ?_⟩
        rw [hu] at hto
        rcases hj4 with rfl | hj4
        · omega
        · exact hj4

theorem wifiWaitLoop_restarted (status : Nat → Bool) (start : Nat) :
    ∀ (fuel k t : Nat), 500 * (k + fuel + 1) < U32 →
      wifiWaitLoop status start k fuel = WifiOutcome.restarted t →
      ∃ j, k < j ∧ t = start + 500 * j ∧ WIFI_TIMEOUT < 500 * j ∧
        (j = k + 1 ∨ 500 * (j - 1) ≤ WIFI_TIMEOUT) := by
  intro fuel
  induction fuel with
  | zero =>
    intro k t hb heq
    simp only [wifiWaitLoop] at heq
    by_cases hs : status k
    · rw [if_pos hs] at heq; simp at heq
    · rw [if_neg hs] at heq; simp at heq
  | succ fuel ih =>
    intro k t hb heq
    simp only [wifiWaitLoop] at heq
    by_cases hs : status k
    · rw [if_pos hs] at heq; simp at heq
    · rw [if_neg hs] at heq
      have hu : usub32 (start + 500 * (k + 1)) start = 500 * (k + 1) :=
        usub32_add_self start (500 * (k + 1)) (by omega)
      by_cases hto : WIFI_TIMEOUT < usub32 (start + 500 * (k + 1)) start
      · rw [if_pos hto] at heq
        have ht : start + 500 * (k + 1) = t := by simpa using heq
        rw [hu] at hto
        exact ⟨k + 1, Nat.lt_succ_self k, ht.symm, hto, Or.inl rfl⟩
      · rw [if_neg hto] at heq
        obtain ⟨j, hj1, hj2, hj3, hj4⟩ := ih (k + 1) t (by omega) heq
        refine ⟨j, by omega, hj2, hj3, Or.inr ?_⟩
        rw [hu] at hto
        rcases hj4 with rfl | hj4
        · simpa using hto
        · exact hj4

theorem wifiWaitLoop_spin (status : Nat → Bool) (start : Nat) :
    ∀ (fuel k : Nat), 500 * (k + fuel + 1) < U32 →
      wifiWaitLoop status start k fuel = WifiOutcome.spin →
      fuel = 0 ∨ 500 * (k + fuel) ≤ WIFI_TIMEOUT := by
  intro fuel
  induction fuel with
  | zero => intro k _ _; exact Or.inl rfl
  | succ fuel ih =>
    intro k hb heq
    simp only [wifiWaitLoop] at heq
    by_cases hs : status k
    · rw [if_pos hs] at heq; simp at heq
    · rw [if_neg hs] at heq
      have hu : usub32 (start + 500 * (k + 1)) start = 500 * (k + 1) :=
        usub32_add_self start (500 * (k + 1)) (by omega)
      by_cases hto : WIFI_TIMEOUT < usub32 (start + 500 * (k + 1)) start
      · rw [if_pos hto] at heq; simp at heq
      · rw [if_neg hto] at heq
        rw [hu] at hto
        rcases ih (k + 1) (by omega) heq with rfl | hle
        · exact Or.inr (by simpa using hto)
        · exact Or.inr (by omega)

/-- Claim C9: with the link already connected, ensureWifiConnected returns
immediately with no events and no state change; otherwise it stamps the
attempt start into lastWifiConnection, polls every 500 ms, returns only at a
poll where the link reports connected and never later than the link timeout,
and past the timeout it restarts the device within one poll interval; with
enough fuel the wait always ends in a return or a restart. -/
theorem C9_ensureWifi (status : Nat → Bool) (start lastW : Nat) (firstW : Bool)
    (fuel : Nat) (hfuel : 121 ≤ fuel) (hwrap : 500 * (fuel + 1) < U32) :
    (ensureWifiConnected true status start firstW lastW fuel =
      { firstWiFi := firstW, lastWifi := lastW, events := [],
        outcome := WifiOutcome.connected start }) ∧
    ((ensureWifiConnected false status start firstW lastW fuel).lastWifi = start) ∧
    ((ensureWifiConnected false status start firstW lastW fuel).events =
      [Event.ledWrite true]) ∧
    (∀ t, (ensureWifiConnected false status start firstW lastW fuel).outcome =
        WifiOutcome.connected t →
      ∃ j, t = start + 500 * j ∧ status j = true ∧ 500 * j ≤ WIFI_TIMEOUT) ∧
    (∀ t, (ensureWifiConnected false status start firstW lastW fuel).outcome =
        WifiOutcome.restarted t →
      ∃ j, t = start + 500 * j ∧ WIFI_TIMEOUT < 500 * j ∧
        500 * (j - 1) ≤ WIFI_TIMEOUT) ∧
    (ensureWifiConnected false status start firstW lastW fuel).outcome ≠
      WifiOutcome.spin := by
  have hfalse : ensureWifiConnected false status start firstW lastW fuel =
      { firstWiFi := false, lastWifi := start, events := [Event.ledWrite true],
        outcome := wifiWaitLoop status start 0 fuel } := rfl
  have hb0 : 500 * (0 + fuel + 1) < U32 := by omega
  refine ⟨rfl, by rw [hfalse], by rw [hfalse], ?_, ?_, ?_⟩
  · intro t ht
    rw [hfalse] at ht
    obtain ⟨j, hj1, hj2, hj3, hj4⟩ :=
      wifiWaitLoop_connected status start fuel 0 t hb0 ht
    refine ⟨j, hj2, hj3, ?_⟩
    rcases hj4 with rfl | hj4
    · simp
    · exact hj4
  · intro t ht
    rw [hfalse] at ht
    obtain ⟨j, hj1, hj2, hj3, hj4⟩ :=
      wifiWaitLoop_restarted status start fuel 0 t hb0 ht
    refine ⟨j, hj2, hj3, ?_⟩
    rcases hj4 with rfl | hj4
    · simp
    · exact hj4
  · intro hc
    rw [hfalse] at hc
    rcases wifiWaitLoop_spin status start fuel 0 hb0 hc with rfl | hle
    · omega
    · unfold WIFI_TIMEOUT at hle
      omega

/-- Concrete instantiation of the C9 theorem: if the link is reported up at
entry the call is a no-op, and with a link that never comes up the wait loop
ends in a restart, not an endless spin. -/
theorem C9_ensureWifi_witness :
    (121 : Nat) ≤ 121 ∧ 500 * (121 + 1) < U32 ∧
    ensureWifiConnected true (fun _ => false) 7 true 3 121 =
      { firstWiFi := true, lastWifi := 3, events := [],
        outcome := WifiOutcome.connected 7 } ∧
    (ensureWifiConnected false (fun _ => false) 7 true 3 121).outcome ≠
      WifiOutcome.spin := by
  have h := C9_ensureWifi (fun _ => false) 7 3 true 121 (by decide) (by decide)
  exact ⟨by decide, by decide, h.1, h.2.2.2.2.2⟩

theorem ensureMqtt_entry (cid : String) (first : Bool) (envs : List MqttIterEnv) :
    ensureMqttConnected cid true first envs = (true, []) := by
  cases envs <;> rfl

theorem ensureMqtt_nil (cid : String) (first : Bool) :
    ensureMqttConnected cid false first [] = (false, []) := rfl

theorem ensureMqtt_cons (cid : String) (first : Bool) (env : MqttIterEnv)
    (rest : List MqttIterEnv) :
    ensureMqttConnected cid false first (env :: rest) =
      ((ensureMqttConnected cid env.connectOk false rest).1,
        iterEvents cid first env ++
          (ensureMqttConnected cid env.connectOk false rest).2) := rfl

theorem countArrive_nil (cid : String) : countArrive cid [] = 0 := rfl

theorem countArrive_append (cid : String) (a b : List Event) :
    countArrive cid (a ++ b) = countArrive cid a + countArrive cid b := by
  simp [countArrive, List.countP_append]

theorem countArrive_iterEvents (cid : String) (first : Bool) (env : MqttIterEnv) :
    countArrive cid (iterEvents cid first env) =
      (if env.connectOk then 1 else 0) := by
  by_cases hc : env.connectOk = true
  · cases first <;> simp [iterEvents, countArrive, hc]
  · have hc2 : env.connectOk = false := by simpa using hc
    cases first <;> simp [iterEvents, countArrive, hc2]

theorem subscribesCovered_iterEvents_false (cid : String) (seen first : Bool)
    (env : MqttIterEnv) (l : List Event) (hc : env.connectOk = false) :
    subscribesCovered cid seen (iterEvents cid first env ++ l) =
      subscribesCovered cid seen l := by
  cases first <;> simp [iterEvents, subscribesCovered, hc]

theorem subscribesCovered_iterEvents_true (cid : String) (seen first : Bool)
    (env : MqttIterEnv) (l : List Event) (hc : env.connectOk = true) :
    subscribesCovered cid seen (iterEvents cid first env ++ l) =
      subscribesCovered cid true l := by
  cases first <;> simp [iterEvents, subscribesCovered, hc]

theorem connectCovered_iterEvents (cid : String) (first : Bool)
    (env : MqttIterEnv) (credit : Nat) (l : List Event) :
    connectCovered credit (iterEvents cid first env ++ l) =
      connectCovered credit l := by
  by_cases hc : env.connectOk = true
  · cases first <;> simp [iterEvents, connectCovered, hc]
  · have hc2 : env.connectOk = false := by simpa using hc
    cases first <;> simp [iterEvents, connectCovered, hc2]

theorem ensureMqtt_countArrive (cid : String) :
    ∀ (envs : List MqttIterEnv) (first : Bool),
      countArrive cid (ensureMqttConnected cid false first envs).2 =
        (if (ensureMqttConnected cid false first envs).1 then 1 else 0) := by
  intro envs
  induction envs with
  | nil => intro first; rfl
  | cons env rest ih =>
    intro first
    rw [ensureMqtt_cons]
    rw [show ((ensureMqttConnected cid env.connectOk false rest).1,
        iterEvents cid first env ++
          (ensureMqttConnected cid env.connectOk false rest).2).2 =
      iterEvents cid first env ++
        (ensureMqttConnected cid env.connectOk false rest).2 from rfl]
    rw [countArrive_append, countArrive_iterEvents]
    by_cases hc : env.connectOk = true
    · rw [hc, ensureMqtt_entry]
      simp [countArrive_nil]
    · have hc2 : env.connectOk = false := by simpa using hc
      rw [hc2]
      simp [ih false]

theorem ensureMqtt_subscribesCovered (cid : String) :
    ∀ (envs : List MqttIterEnv) (first seen : Bool),
      subscribesCovered cid seen (ensureMqttConnected cid false first envs).2 =
        true := by
  intro envs
  induction envs with
  | nil => intro first seen; rfl
  | cons env rest ih =>
    intro first seen
    rw [ensureMqtt_cons]
    by_cases hc : env.connectOk = true
    · rw [hc, ensureMqtt_entry]
      exact subscribesCovered_iterEvents_true cid seen first env [] hc
    · have hc2 : env.connectOk = false := by simpa using hc
      rw [hc2]
      rw [show ((ensureMqttConnected cid false false rest).1,
          iterEvents cid first env ++
            (ensureMqttConnected cid false false rest).2).2 =
        iterEvents cid first env ++
          (ensureMqttConnected cid false false rest).2 from rfl]
      rw [subscribesCovered_iterEvents_false cid seen first env _ hc2]
      exact ih false seen

theorem ensureMqtt_connectCovered (cid : String) :
    ∀ (envs : List MqttIterEnv) (first : Bool) (credit : Nat),
      connectCovered credit (ensureMqttConnected cid false first envs).2 =
        true := by
  intro envs
  induction envs with
  | nil => intro first credit; rfl
  | cons env rest ih =>
    intro first credit
    rw [ensureMqtt_cons]
    rw [show ((ensureMqttConnected cid env.connectOk false rest).1,
        iterEvents cid first env ++
          (ensureMqttConnected cid env.connectOk false rest).2).2 =
      iterEvents cid first env ++
        (ensureMqttConnected cid env.connectOk false rest).2 from rfl]
    rw [connectCovered_iterEvents]
    by_cases hc : env.connectOk = true
    · rw [hc, ensureMqtt_entry]
      rfl
    · have hc2 : env.connectOk = false := by simpa using hc
      rw [hc2]
      exact ih false credit

/-- Claim C8: a successful session open emits the WiFi re-verification, then
the connect, then exactly one arrival announcement with the identity as
payload, then the status subscription, completing the connection regardless
of the publish and subscribe results; over any run of connection attempts
the arrival announcement occurs exactly once when the session comes up and
never otherwise, every subscription is preceded by the announcement, and
every connect attempt is preceded by its own WiFi re-verification. -/
theorem C8_ensureMqtt (cid : String) (first : Bool) (envs : List MqttIterEnv) :
    (∀ env rest, env.connectOk = true →
      ensureMqttConnected cid false first (env :: rest) =
        (true,
          [Event.ensureWifi, Event.ledWrite true] ++
          (if first then [] else [Event.delayMs MQTT_RECONNECT_DELAY]) ++
          [Event.mqttConnect true,
            Event.publish MQTT_TOPIC_ARRIVE cid env.publishOk,
            Event.subscribe env.subscribeOk])) ∧
    countArrive cid (ensureMqttConnected cid false first envs).2 =
      (if (ensureMqttConnected cid false first envs).1 then 1 else 0) ∧
    subscribesCovered cid false (ensureMqttConnected cid false first envs).2 =
      true ∧
    connectCovered 0 (ensureMqttConnected cid false first envs).2 = true := by
  refine ⟨?_, ensureMqtt_countArrive cid envs first,
    ensureMqtt_subscribesCovered cid envs first false,
    ensureMqtt_connectCovered cid envs first 0⟩
  intro env rest hc
  rw [ensureMqtt_cons, hc, ensureMqtt_entry]
  simp [iterEvents, hc]

/-- Concrete instantiation of the C8 theorem: a session open whose arrival
publish and status subscription both fail still completes, with the arrival
announcement emitted once, immediately before the subscription. -/
theorem C8_ensureMqtt_witness :
    MqttIterEnv.connectOk ⟨true, false, false⟩ = true ∧
    ensureMqttConnected "aa" false true [⟨true, false, false⟩] =
      (true,
        [Event.ensureWifi, Event.ledWrite true] ++
        (if true then [] else [Event.delayMs MQTT_RECONNECT_DELAY]) ++
        [Event.mqttConnect true, Event.publish MQTT_TOPIC_ARRIVE "aa" false,
          Event.subscribe false]) := by
  have h := C8_ensureMqtt "aa" true [⟨true, false, false⟩]
  exact ⟨rfl, h.1 ⟨true, false, false⟩ [] rfl⟩

end OnAirBox
